import Mathlib

/-!
Verification of the KSEI ownership-switching dashboard (`src/app.py`)
against its natural-language specification.

The scoring core is embedded shallowly:

* a dataframe row (one security on one snapshot date) becomes `Row`;
  the aggregate columns `Local_Institusi`, `Foreign_Institusi`,
  `Local_Retail`, `Foreign_Retail` produced by `load_data` are fields;
  share counts are integers (the CSV's ownership columns hold whole
  share counts, and the engine only subtracts, adds and compares them,
  operations on which the integers embed exactly into pandas' floats)
  while the price column, which the scoring engine never reads, stays
  rational;
* dates are integers counting calendar days (`pd.DateOffset(days=n)`
  is subtraction of `n`); in the concrete examples below day 0 is
  2024-01-31 and day 29 is 2024-02-29 (2024 is a leap year, so the two
  dates are 29 calendar days apart);
* `calculate_switching_score` (app.py lines 60-99) is translated
  clause by clause: the empty guard, the distinct-date guard, the
  period alignment, the end/start cross-sections joined on `Code` with
  rows lacking a start side dropped, the delta and score columns, and
  the final descending sort on `Switching Score`;
* `DataFrame.sort_values(ascending=False)` is modelled as the reverse
  of a stable ascending sort: pandas' `nargsort` computes an ascending
  argsort and reverses the whole indexer for descending order, and
  numpy's argsort is an insertion sort (stable) below the introsort
  cutoff, which covers every concrete example used here;
* the detail tab's per-security window (app.py lines 171-177) becomes
  `tabDetailAlign`, and the name lookup that crashes on line 166 is
  modelled by an explicit environment of the module-level names bound
  before that line (`tabDetailRun`).
-/

/-- One dataframe row after `load_data`: a security's snapshot on one
date, with the four aggregate ownership columns derived there and the
optional `Description` column. -/
structure Row where
  code : String
  date : ℤ
  price : ℚ
  localInst : ℤ
  foreignInst : ℤ
  localRetail : ℤ
  foreignRetail : ℤ
  description : Option String
deriving DecidableEq

/-- One row of the frame built at app.py lines 91-97: the five columns
`Saham`, `Nama Perusahaan`, `Switching Score`, `Akumulasi Institusi`,
`Distribusi Ritel`. -/
structure FinalRec where
  saham : String
  nama : String
  switchingScore : ℤ
  akumulasiInstitusi : ℤ
  distribusiRitel : ℤ
deriving DecidableEq

/-- Last element of a list, with a default for the empty list; models
`xs[-1]` / `.iloc[-1]` on the Python side. -/
def lastD {α : Type} (l : List α) (d : α) : α :=
  match l with
  | [] => d
  | x :: t => if t.isEmpty then x else lastD t d

/-- Maximum of a list of dates; models `Series.max()`. -/
def listMax (l : List ℤ) : ℤ :=
  match l with
  | [] => 0
  | x :: t => t.foldl max x

/-- `sorted(data['Last Trading Date'].unique())` at app.py line 64:
the distinct snapshot dates in ascending order. -/
def uniqueDates (data : List Row) : List ℤ :=
  List.insertionSort (· ≤ ·) (data.map Row.date).dedup

/-- App.py lines 64-71: end date is the last (largest) distinct date,
the target start is `end - period_days` calendar days, and the start
date is the last available date at or before the target.  `none` when
fewer than two distinct dates exist or no date reaches back to the
target (the code returns an empty frame in those cases). -/
def alignPeriod (data : List Row) (period_days : ℤ) : Option (ℤ × ℤ) :=
  if (uniqueDates data).length < 2 then none
  else
    let end_date := lastD (uniqueDates data) 0
    let past := (uniqueDates data).filter (fun d => decide (d ≤ end_date - period_days))
    if past.isEmpty then none
    else some (lastD past 0, end_date)

/-- App.py lines 73-77: the end cross-section joined with the start
cross-section on `Code` (a left join on the end side), keeping only
rows whose start columns are present (`dropna` on the `_start`
aggregate columns).  Each element is an (end row, start row) pair. -/
def deltaTable (data : List Row) (period_days : ℤ) : List (Row × Row) :=
  match alignPeriod data period_days with
  | none => []
  | some (start_date, end_date) =>
    let endRows := data.filter (fun r => decide (r.date = end_date))
    let startRows := data.filter (fun r => decide (r.date = start_date))
    endRows.filterMap (fun er =>
      (startRows.find? (fun sr => decide (sr.code = er.code))).map (fun sr => (er, sr)))

/-- App.py lines 79-97: the per-security deltas, their institution and
retail totals, the switching score, and the output columns.
`Nama Perusahaan` is `Description_end` when the column exists, else the
code (`result_df.get`). -/
def mkFinalRec (er sr : Row) : FinalRec :=
  ⟨er.code,
   er.description.getD er.code,
   ((er.localInst - sr.localInst) + (er.foreignInst - sr.foreignInst)) -
     ((er.localRetail - sr.localRetail) + (er.foreignRetail - sr.foreignRetail)),
   (er.localInst - sr.localInst) + (er.foreignInst - sr.foreignInst),
   (er.localRetail - sr.localRetail) + (er.foreignRetail - sr.foreignRetail)⟩

/-- Comparison on the `Switching Score` column. -/
def scoreLE (a b : FinalRec) : Prop := a.switchingScore ≤ b.switchingScore

instance : DecidableRel scoreLE :=
  fun a b => inferInstanceAs (Decidable (a.switchingScore ≤ b.switchingScore))

instance : IsTotal FinalRec scoreLE := ⟨fun a b => le_total a.switchingScore b.switchingScore⟩

instance : IsTrans FinalRec scoreLE := ⟨fun _ _ _ h h2 => le_trans h h2⟩

/-- `final_df.sort_values(by='Switching Score', ascending=False)` at
app.py line 99: pandas computes an ascending argsort and reverses the
indexer, so a descending sort is the reverse of a stable ascending
sort. -/
def sortValuesDesc (l : List FinalRec) : List FinalRec :=
  (List.insertionSort scoreLE l).reverse

/-- App.py lines 60-99, `calculate_switching_score`. -/
def calculate_switching_score (data : List Row) (period_days : ℤ) : List FinalRec :=
  if data.isEmpty then []
  else sortValuesDesc ((deltaTable data period_days).map (fun pr => mkFinalRec pr.1 pr.2))

/-- `final_results.head(50)` at app.py line 143: the screener shows at
most the top 50 records. -/
def topResults (data : List Row) (period_days : ℤ) : List FinalRec :=
  (calculate_switching_score data period_days).take 50

/-- App.py lines 171-177 (detail tab): the security's own end date is
its maximum date, the window keeps the rows dated at or after
`end - period_days_detail`, and when more than one row remains the
summary compares the first and the last row of that window. -/
def tabDetailAlign (stock_data : List Row) (period_days_detail : ℤ) : Option (Row × Row) :=
  let target := listMax (stock_data.map Row.date) - period_days_detail
  match stock_data.filter (fun r => decide (target ≤ r.date)) with
  | [] => none
  | [_] => none
  | r0 :: r1 :: rest => some (r0, lastD (r1 :: rest) r1)

/-- A Python runtime error raised while the detail tab executes. -/
inductive PyError where
  | nameError (missing : String)
deriving DecidableEq

/-- What the detail tab produces: a warning banner, a raised runtime
error, or the rendered summary comparing a start and an end row. -/
inductive DetailOutcome where
  | warnNoData
  | warnNoStock
  | warnInsufficient
  | raised (e : PyError)
  | rendered (startRow endRow : Row)
deriving DecidableEq

/-- The module-level names bound by app.py before line 166 executes:
the imports (lines 1-5), the top-level defs and frames (lines 23-128),
the screener-tab assignments (lines 135-150, module scope because
`with st.tabs` blocks do not open a new scope), and the detail-tab
assignments of lines 161-165.  Line 165 binds
`selected_period_detail_label`; no line binds
`selected_period_detail`. -/
def tabDetailModuleEnv : List String :=
  ["st", "pd", "np", "go", "make_subplots",
   "load_data", "df", "calculate_switching_score", "create_switching_charts",
   "tab_screener", "tab_detail",
   "period_options", "selected_period_label", "period_days",
   "final_results", "top_results", "display_df",
   "all_stocks", "selected_stock",
   "period_options_detail", "selected_period_detail_label"]

/-- App.py lines 156-203, the detail tab: the empty-data guard, then
line 166 `period_days_detail = period_options_detail[selected_period_detail]`,
which evaluates the name `selected_period_detail` in the module
environment and raises `NameError` when it is unbound; only past that
line does the tab filter the selected security's rows and render the
window resolved by `tabDetailAlign`. -/
def tabDetailRun (data : List Row) (selectedStock : String)
    (periodDaysDetail : ℤ) : DetailOutcome :=
  if data.isEmpty then .warnNoData
  else if "selected_period_detail" ∈ tabDetailModuleEnv then
    let stock_data := data.filter (fun r => decide (r.code = selectedStock))
    if stock_data.isEmpty then .warnNoStock
    else
      match tabDetailAlign stock_data periodDaysDetail with
      | some (s, e) => .rendered s e
      | none => .warnInsufficient
  else .raised (.nameError "selected_period_detail")

/-! ### Normalizer, modelled from the spec

`src/app.py` contains no z-score normalizer: the spec (sections 4.3 and
9) attributes it to other revisions of this repository.  The following
definitions are therefore modelled from the spec's words alone. -/

/-- Modelled from the spec: the Normalizer's cross-sectional mean of a
column of raw deltas (the normalizer itself is absent from
`src/app.py`). -/
noncomputable def colMean (xs : List ℝ) : ℝ := xs.sum / xs.length

/-- Modelled from the spec: the mean squared deviation of a delta
column (the normalizer is absent from `src/app.py`). -/
noncomputable def colVariance (xs : List ℝ) : ℝ :=
  ((xs.map (fun x => (x - colMean xs) ^ 2)).sum) / xs.length

/-- Modelled from the spec: the standard deviation of a delta column
(the normalizer is absent from `src/app.py`). -/
noncomputable def colStddev (xs : List ℝ) : ℝ := Real.sqrt (colVariance xs)

/-- Modelled from the spec: the Normalizer of section 4.3.  The z-score
of a column is `(x - mean) / stddev`, and when the standard deviation
is zero every element's z-score is defined to be 0 (the deliberate
clamp policy; the normalizer is absent from `src/app.py`). -/
noncomputable def zscoreColumn (xs : List ℝ) : List ℝ :=
  @ite _ (colStddev xs = 0) (Classical.dec _)
    (xs.map (fun _ => 0))
    (xs.map (fun x => (x - colMean xs) / colStddev xs))

/-! ### Concrete datasets

Day 0 is 2024-01-31 and day 29 is 2024-02-29 (29 calendar days apart;
2024 is a leap year). -/

/-- Security A on 2024-01-31 in the spec's worked example. -/
def c2rowAJan : Row := ⟨"A", 0, 1, 100, 50, 500, 0, none⟩

/-- Security A on 2024-02-29 in the spec's worked example. -/
def c2rowAFeb : Row := ⟨"A", 29, 1, 150, 60, 460, 0, none⟩

/-- Security B on 2024-01-31 in the spec's worked example. -/
def c2rowBJan : Row := ⟨"B", 0, 1, 200, 300, 100, 0, none⟩

/-- Security B on 2024-02-29 in the spec's worked example. -/
def c2rowBFeb : Row := ⟨"B", 29, 1, 180, 300, 120, 0, none⟩

/-- The spec's worked example (section 8): securities A and B on
2024-01-31 and 2024-02-29, in the `(Code, date)` order `load_data`
sorts the frame into. -/
def c2data : List Row := [c2rowAJan, c2rowAFeb, c2rowBJan, c2rowBFeb]

/-- Snapshot at day 0 for the detail-tab window example. -/
def c4row0 : Row := ⟨"D", 0, 1, 10, 0, 0, 0, none⟩

/-- Snapshot at day 100 for the detail-tab window example: the latest
snapshot at or before the 90-day target start (day 110). -/
def c4row100 : Row := ⟨"D", 100, 1, 11, 0, 0, 0, none⟩

/-- Snapshot at day 150 for the detail-tab window example: the first
snapshot after the 90-day target start (day 110). -/
def c4row150 : Row := ⟨"D", 150, 1, 12, 0, 0, 0, none⟩

/-- Snapshot at day 200 (the latest) for the detail-tab window
example. -/
def c4row200 : Row := ⟨"D", 200, 1, 13, 0, 0, 0, none⟩

/-- A single security with snapshots on days 0, 100, 150, 200, date
ascending. -/
def c4stock : List Row := [c4row0, c4row100, c4row150, c4row200]

/-- Tie example, security AAA at day 0. -/
def c7rowA0 : Row := ⟨"AAA", 0, 1, 10, 0, 0, 0, none⟩

/-- Tie example, security AAA at day 29: local institutions up 7. -/
def c7rowA29 : Row := ⟨"AAA", 29, 1, 17, 0, 0, 0, none⟩

/-- Tie example, security BBB at day 0. -/
def c7rowB0 : Row := ⟨"BBB", 0, 1, 20, 0, 0, 0, none⟩

/-- Tie example, security BBB at day 29: local institutions up 7, the
same switching score as AAA. -/
def c7rowB29 : Row := ⟨"BBB", 29, 1, 27, 0, 0, 0, none⟩

/-- Dataset in which AAA and BBB end with identical switching
scores. -/
def c7data : List Row := [c7rowA0, c7rowA29, c7rowB0, c7rowB29]

/-- The AAA record of the tie example. -/
def c7recA : FinalRec := mkFinalRec c7rowA29 c7rowA0

/-- The BBB record of the tie example. -/
def c7recB : FinalRec := mkFinalRec c7rowB29 c7rowB0

/-- Price example, security X at day 0: price 4. -/
def c8rowStart : Row := ⟨"X", 0, 4, 10, 20, 30, 0, none⟩

/-- Price example, security X at day 29: price 6, so the period price
percentage change is 1/2. -/
def c8rowEnd : Row := ⟨"X", 29, 6, 11, 22, 33, 0, none⟩

/-- Dataset whose single security has a period price change of 1/2,
distinct from every delta the engine computes for it. -/
def c8data : List Row := [c8rowStart, c8rowEnd]

/-- The record the engine produces for X. -/
def c8rec : FinalRec := mkFinalRec c8rowEnd c8rowStart

/-- Replace a row's price, leaving every other column unchanged. -/
def setPrice (r : Row) (q : ℚ) : Row :=
  ⟨r.code, r.date, q, r.localInst, r.foreignInst, r.localRetail, r.foreignRetail,
   r.description⟩

/-! ### Helper lemmas -/

lemma isEmpty_false_of_ne_nil {α : Type} {l : List α} (h : l ≠ []) : l.isEmpty = false := by
  cases l with
  | nil => exact absurd rfl h
  | cons x t => rfl

lemma lastD_mem {α : Type} (l : List α) (d : α) (h : l ≠ []) : lastD l d ∈ l := by
  induction l with
  | nil => exact absurd rfl h
  | cons x t ih =>
    cases t with
    | nil => simp [lastD]
    | cons y t' =>
      simp only [lastD, List.isEmpty_cons, if_false]
      exact List.mem_cons_of_mem x (ih (by simp))

lemma lastD_ge (l : List ℤ) (hs : List.Pairwise (· ≤ ·) l) (a : ℤ) (ha : a ∈ l)
    (d : ℤ) : a ≤ lastD l d := by
  induction l with
  | nil => exact absurd ha (List.not_mem_nil a)
  | cons x t ih =>
    rw [List.pairwise_cons] at hs
    cases t with
    | nil =>
      rw [List.mem_singleton] at ha
      subst ha
      simp [lastD]
    | cons y t' =>
      simp only [lastD, List.isEmpty_cons, if_false]
      rcases List.mem_cons.1 ha with hax | hat
      · subst hax
        exact hs.1 _ (lastD_mem (y :: t') d (by simp))
      · exact ih hs.2 hat

lemma mem_uniqueDates (data : List Row) (x : ℤ) :
    x ∈ uniqueDates data ↔ x ∈ data.map Row.date := by
  unfold uniqueDates
  rw [List.mem_insertionSort]
  exact List.mem_dedup

lemma uniqueDates_pairwise (data : List Row) :
    List.Pairwise (· ≤ ·) (uniqueDates data) :=
  List.sorted_insertionSort (· ≤ ·) (data.map Row.date).dedup

lemma length_uniqueDates (data : List Row) :
    (uniqueDates data).length = (data.map Row.date).dedup.length :=
  List.length_insertionSort (· ≤ ·) (data.map Row.date).dedup

lemma calc_of_align_none {data : List Row} {p : ℤ}
    (h : alignPeriod data p = none) : calculate_switching_score data p = [] := by
  unfold calculate_switching_score deltaTable
  rw [h]
  simp [sortValuesDesc, List.insertionSort]

/-! ### Claim theorems -/

/-- Claim C2, counterexample: on the spec's worked example
(snapshots 2024-01-31 and 2024-02-29, the screener's one-month lookback
of 30 days) the engine returns the empty frame, not the claimed ranking
of A above B: the target start 2024-02-29 minus 30 days is 2024-01-30,
and no snapshot lies at or before it. -/
theorem claim_C2_counterexample : calculate_switching_score c2data 30 = [] := by decide

/-- Claim C2, amended: with a lookback of 29 days the start resolves to
2024-01-31 and the engine produces the claimed deltas (A: +50, +10,
-40; B: -20, 0, +20), the claimed net scores (A = 100, B = -40), and
ranks A above B; with the 30-day one-month lookback it returns the
empty result instead. -/
theorem claim_C2_amended :
    calculate_switching_score c2data 29 =
      [⟨"A", "A", 100, 60, -40⟩, ⟨"B", "B", -40, -20, 20⟩]
    ∧ c2rowAFeb.localInst - c2rowAJan.localInst = 50
    ∧ c2rowAFeb.foreignInst - c2rowAJan.foreignInst = 10
    ∧ c2rowAFeb.localRetail - c2rowAJan.localRetail = -40
    ∧ c2rowBFeb.localInst - c2rowBJan.localInst = -20
    ∧ c2rowBFeb.foreignInst - c2rowBJan.foreignInst = 0
    ∧ c2rowBFeb.localRetail - c2rowBJan.localRetail = 20 := by decide

/-- Claim C6: `calculate_switching_score` returns the empty result -
never an error - when the dataset is empty, when it has fewer than two
distinct snapshot dates, and when no snapshot date lies at or before
the target start date. -/
theorem claim_C6 (data : List Row) (p : ℤ) :
    (data = [] → calculate_switching_score data p = [])
    ∧ ((data.map Row.date).dedup.length < 2 → calculate_switching_score data p = [])
    ∧ ((∀ x ∈ data.map Row.date, lastD (uniqueDates data) 0 - p < x) →
        calculate_switching_score data p = []) := by
  refine ⟨?_, ?_, ?_⟩
  · intro h
    subst h
    rfl
  · intro h
    apply calc_of_align_none
    unfold alignPeriod
    rw [if_pos]
    rw [length_uniqueDates]
    exact h
  · intro h
    by_cases h2 : (uniqueDates data).length < 2
    · apply calc_of_align_none
      unfold alignPeriod
      rw [if_pos h2]
    · apply calc_of_align_none
      unfold alignPeriod
      rw [if_neg h2]
      have hfil : (uniqueDates data).filter
          (fun d => decide (d ≤ lastD (uniqueDates data) 0 - p)) = [] := by
        rw [List.filter_eq_nil_iff]
        intro a ha
        have hlt : lastD (uniqueDates data) 0 - p < a :=
          h a ((mem_uniqueDates data a).1 ha)
        simp
        omega
      simp [hfil]

/-- Claim C6, witness at the empty dataset. -/
theorem claim_C6_witness : calculate_switching_score ([] : List Row) 30 = [] :=
  (claim_C6 [] 30).1 rfl

/-- Claim C10: whenever the loaded dataset is non-empty, the detail tab
evaluates the unbound name `selected_period_detail` (line 165 bound
`selected_period_detail_label` instead) and raises `NameError` before
resolving any per-security window or rendering a summary. -/
theorem claim_C10 (data : List Row) (stock : String) (p : ℤ) (h : data ≠ []) :
    tabDetailRun data stock p = .raised (.nameError "selected_period_detail")
    ∧ "selected_period_detail_label" ∈ tabDetailModuleEnv
    ∧ "selected_period_detail" ∉ tabDetailModuleEnv := by
  refine ⟨?_, by decide, by decide⟩
  unfold tabDetailRun
  rw [isEmpty_false_of_ne_nil h]
  rw [if_neg (by simp)]
  rw [if_neg (by decide : ¬ "selected_period_detail" ∈ tabDetailModuleEnv)]

/-- Claim C10, witness: a concrete non-empty dataset crashes the detail
tab with the `NameError`. -/
theorem claim_C10_witness :
    tabDetailRun c2data "A" 90 = .raised (.nameError "selected_period_detail")
    ∧ "selected_period_detail_label" ∈ tabDetailModuleEnv
    ∧ "selected_period_detail" ∉ tabDetailModuleEnv :=
  claim_C10 c2data "A" 90 (by decide)

/-- Sum of a constant column. -/
lemma sum_const_of_all_eq (l : List ℝ) (c : ℝ) (h : ∀ x ∈ l, x = c) :
    l.sum = c * l.length := by
  induction l with
  | nil => simp
  | cons z u ih =>
    have hz : z = c := h z (List.mem_cons_self z u)
    have hu : ∀ x ∈ u, x = c := fun x hx => h x (List.mem_cons_of_mem z hx)
    rw [List.sum_cons, ih hu, hz, List.length_cons]
    push_cast
    ring

/-- Claim C9: when all values of a delta column are identical
(including the single-security column), the Normalizer's z-scores are
all exactly 0 - the stddev-zero clamp, not NaN or infinity. -/
theorem claim_C9 (xs : List ℝ) (c : ℝ) (h : ∀ x ∈ xs, x = c) :
    zscoreColumn xs = xs.map (fun _ => 0) := by
  have hvar : colVariance xs = 0 := by
    cases xs with
    | nil => simp [colVariance]
    | cons y t =>
      have hmean : colMean (y :: t) = c := by
        unfold colMean
        rw [sum_const_of_all_eq (y :: t) c h]
        have hlen : (((y :: t).length : ℝ)) ≠ 0 :=
          Nat.cast_ne_zero.mpr (by simp)
        field_simp
      have hz : ((y :: t).map (fun x => (x - colMean (y :: t)) ^ 2)).sum = 0 := by
        apply List.sum_eq_zero
        intro z hzm
        obtain ⟨x, hx, hxz⟩ := List.mem_map.1 hzm
        rw [← hxz, hmean, h x hx]
        ring
      unfold colVariance
      rw [hz, zero_div]
  have hstd : colStddev xs = 0 := by
    unfold colStddev
    rw [hvar, Real.sqrt_zero]
  unfold zscoreColumn
  rw [if_pos hstd]

/-- Claim C9, witness: a concrete all-identical column normalizes to
all zeros. -/
theorem claim_C9_witness :
    (∀ x ∈ ([5, 5] : List ℝ), x = 5) ∧ zscoreColumn [5, 5] = [0, 0] :=
  ⟨by simp, by rw [claim_C9 [5, 5] 5 (by simp)]; rfl⟩

/-- Claim C3: on any dataset with at least two distinct snapshot dates
(and some snapshot at or before the target start date, without which
the code returns the empty frame instead of resolving a period), the
aligner resolves the end date to the maximum available date and the
start date to the latest available date at or before the target start
date, which is the end date minus the lookback in calendar days. -/
theorem claim_C3 (data : List Row) (p : ℤ)
    (h2 : 2 ≤ (uniqueDates data).length)
    (hpast : ∃ d ∈ data.map Row.date, d ≤ lastD (uniqueDates data) 0 - p) :
    ∃ s e, alignPeriod data p = some (s, e)
      ∧ e ∈ data.map Row.date ∧ (∀ x ∈ data.map Row.date, x ≤ e)
      ∧ s ∈ data.map Row.date ∧ s ≤ e - p
      ∧ (∀ x ∈ data.map Row.date, x ≤ e - p → x ≤ s) := by
  have hne : uniqueDates data ≠ [] := by
    intro h0
    rw [h0] at h2
    simp at h2
  obtain ⟨d0, hd0m, hd0le⟩ := hpast
  have hd0past : d0 ∈ (uniqueDates data).filter
      (fun d => decide (d ≤ lastD (uniqueDates data) 0 - p)) :=
    List.mem_filter.2 ⟨(mem_uniqueDates data d0).2 hd0m, by simpa using hd0le⟩
  have hpastne : (uniqueDates data).filter
      (fun d => decide (d ≤ lastD (uniqueDates data) 0 - p)) ≠ [] :=
    List.ne_nil_of_mem hd0past
  refine ⟨lastD ((uniqueDates data).filter
      (fun d => decide (d ≤ lastD (uniqueDates data) 0 - p))) 0,
    lastD (uniqueDates data) 0, ?_, ?_, ?_, ?_, ?_, ?_⟩
  · unfold alignPeriod
    rw [if_neg (by omega)]
    rw [if_neg (by simp [isEmpty_false_of_ne_nil hpastne])]
  · exact (mem_uniqueDates data _).1 (lastD_mem _ 0 hne)
  · intro x hx
    exact lastD_ge _ (uniqueDates_pairwise data) x ((mem_uniqueDates data x).2 hx) 0
  · have hmem := lastD_mem _ 0 hpastne
    have := (List.mem_filter.1 hmem).1
    exact (mem_uniqueDates data _).1 this
  · have hmem := lastD_mem _ 0 hpastne
    have := (List.mem_filter.1 hmem).2
    simpa using this
  · intro x hx hxle
    apply lastD_ge _ ((uniqueDates_pairwise data).filter _)
    exact List.mem_filter.2 ⟨(mem_uniqueDates data x).2 hx, by simpa using hxle⟩

/-- Claim C3, witness on the worked example with a 29-day lookback. -/
theorem claim_C3_witness :
    ∃ s e, alignPeriod c2data 29 = some (s, e)
      ∧ e ∈ c2data.map Row.date ∧ (∀ x ∈ c2data.map Row.date, x ≤ e)
      ∧ s ∈ c2data.map Row.date ∧ s ≤ e - 29
      ∧ (∀ x ∈ c2data.map Row.date, x ≤ e - 29 → x ≤ s) :=
  claim_C3 c2data 29 (by decide) (by decide)

/-- Claim C1: for every (end row, start row) pair of the joined
start/end cross-section, the net switching score is the delta of total
institution holdings (local plus foreign) minus the delta of total
retail holdings (local plus foreign), on raw share counts; and every
record the engine emits satisfies score = institutional accumulation
minus retail distribution. -/
theorem claim_C1 (data : List Row) (p : ℤ) :
    (∀ pr ∈ deltaTable data p,
      (mkFinalRec pr.1 pr.2).switchingScore =
        ((pr.1.localInst + pr.1.foreignInst) - (pr.2.localInst + pr.2.foreignInst))
        - ((pr.1.localRetail + pr.1.foreignRetail) - (pr.2.localRetail + pr.2.foreignRetail)))
    ∧ ∀ r0 ∈ calculate_switching_score data p,
        r0.switchingScore = r0.akumulasiInstitusi - r0.distribusiRitel := by
  constructor
  · intro pr _
    simp only [mkFinalRec]
    ring
  · intro r0 hr0
    unfold calculate_switching_score at hr0
    by_cases hd : data.isEmpty
    · rw [if_pos hd] at hr0
      exact absurd hr0 (List.not_mem_nil r0)
    · rw [if_neg hd] at hr0
      unfold sortValuesDesc at hr0
      rw [List.mem_reverse, List.mem_insertionSort] at hr0
      obtain ⟨pr, _, hpr⟩ := List.mem_map.1 hr0
      rw [← hpr]
      simp only [mkFinalRec]

/-- Claim C1, witness: security A of the worked example. -/
theorem claim_C1_witness :
    (mkFinalRec c2rowAFeb c2rowAJan).switchingScore =
      ((c2rowAFeb.localInst + c2rowAFeb.foreignInst)
        - (c2rowAJan.localInst + c2rowAJan.foreignInst))
      - ((c2rowAFeb.localRetail + c2rowAFeb.foreignRetail)
        - (c2rowAJan.localRetail + c2rowAJan.foreignRetail)) :=
  (claim_C1 c2data 29).1 (c2rowAFeb, c2rowAJan) (by decide)

/-- Claim C5: with a resolved period, the delta table holds exactly the
securities that have a snapshot row on both the resolved start and end
dates - a security on one side only is excluded, never zero-filled -
and each pair joins an end row with a start row of the same code; both
emitted aggregate deltas are end count minus start count. -/
theorem claim_C5 (data : List Row) (p : ℤ) (s e : ℤ)
    (halign : alignPeriod data p = some (s, e)) :
    (∀ pr ∈ deltaTable data p,
        pr.1 ∈ data ∧ pr.2 ∈ data ∧ pr.1.date = e ∧ pr.2.date = s
          ∧ pr.2.code = pr.1.code)
    ∧ (∀ c : String,
        (∃ pr ∈ deltaTable data p, pr.1.code = c) ↔
          ((∃ er ∈ data, er.code = c ∧ er.date = e)
            ∧ (∃ sr ∈ data, sr.code = c ∧ sr.date = s)))
    ∧ (∀ pr ∈ deltaTable data p,
        (mkFinalRec pr.1 pr.2).akumulasiInstitusi =
          (pr.1.localInst + pr.1.foreignInst) - (pr.2.localInst + pr.2.foreignInst)
        ∧ (mkFinalRec pr.1 pr.2).distribusiRitel =
          (pr.1.localRetail + pr.1.foreignRetail)
            - (pr.2.localRetail + pr.2.foreignRetail)) := by
  have hdt : deltaTable data p =
      (data.filter (fun r => decide (r.date = e))).filterMap (fun er =>
        ((data.filter (fun r => decide (r.date = s))).find?
            (fun sr => decide (sr.code = er.code))).map (fun sr => (er, sr))) := by
    unfold deltaTable
    rw [halign]
  have hpair : ∀ pr ∈ deltaTable data p,
      pr.1 ∈ data ∧ pr.2 ∈ data ∧ pr.1.date = e ∧ pr.2.date = s
        ∧ pr.2.code = pr.1.code := by
    intro pr hpr
    rw [hdt] at hpr
    obtain ⟨er, herm, hmap⟩ := List.mem_filterMap.1 hpr
    obtain ⟨sr, hfind, heq⟩ := Option.map_eq_some'.1 hmap
    obtain ⟨herd, herdate⟩ := List.mem_filter.1 herm
    have hsrm := List.mem_of_find?_eq_some hfind
    obtain ⟨hsrd, hsrdate⟩ := List.mem_filter.1 hsrm
    have hcode := List.find?_some hfind
    rw [← heq]
    refine ⟨herd, hsrd, by simpa using herdate, by simpa using hsrdate, by simpa using hcode⟩
  refine ⟨hpair, ?_, ?_⟩
  · intro c
    constructor
    · rintro ⟨pr, hpr, hprc⟩
      obtain ⟨h1, h2, h3, h4, h5⟩ := hpair pr hpr
      exact ⟨⟨pr.1, h1, hprc, h3⟩, ⟨pr.2, h2, by rw [h5, hprc], h4⟩⟩
    · rintro ⟨⟨er, herd, herc, herdate⟩, ⟨sr, hsrd, hsrc, hsrdate⟩⟩
      have herm : er ∈ data.filter (fun r => decide (r.date = e)) :=
        List.mem_filter.2 ⟨herd, by simpa using herdate⟩
      have hsrm : sr ∈ data.filter (fun r => decide (r.date = s)) :=
        List.mem_filter.2 ⟨hsrd, by simpa using hsrdate⟩
      cases hf : (data.filter (fun r => decide (r.date = s))).find?
          (fun sr' => decide (sr'.code = er.code)) with
      | none =>
        exact absurd (by simp [hsrc, herc] :
            (fun sr' => decide (sr'.code = er.code)) sr = true)
          (by simpa using List.find?_eq_none.1 hf sr hsrm)
      | some sr' =>
        refine ⟨(er, sr'), ?_, herc⟩
        rw [hdt]
        exact List.mem_filterMap.2 ⟨er, herm, by rw [hf]; rfl⟩
  · intro pr _
    exact ⟨by simp only [mkFinalRec]; ring, by simp only [mkFinalRec]; ring⟩

/-- Claim C5, witness on the worked example: period resolved to
(0, 29), i.e. 2024-01-31 to 2024-02-29. -/
theorem claim_C5_witness :
    (∀ pr ∈ deltaTable c2data 29,
        pr.1 ∈ c2data ∧ pr.2 ∈ c2data ∧ pr.1.date = 29 ∧ pr.2.date = 0
          ∧ pr.2.code = pr.1.code)
    ∧ (∀ c : String,
        (∃ pr ∈ deltaTable c2data 29, pr.1.code = c) ↔
          ((∃ er ∈ c2data, er.code = c ∧ er.date = 29)
            ∧ (∃ sr ∈ c2data, sr.code = c ∧ sr.date = 0)))
    ∧ (∀ pr ∈ deltaTable c2data 29,
        (mkFinalRec pr.1 pr.2).akumulasiInstitusi =
          (pr.1.localInst + pr.1.foreignInst) - (pr.2.localInst + pr.2.foreignInst)
        ∧ (mkFinalRec pr.1 pr.2).distribusiRitel =
          (pr.1.localRetail + pr.1.foreignRetail)
            - (pr.2.localRetail + pr.2.foreignRetail)) :=
  claim_C5 c2data 29 0 29 (by decide)

/-- Claim C7, counterexample: two securities with identical switching
scores come out with the larger code first.  Pandas' descending sort
reverses the ascending argsort, so the tie ends up in the reverse of
the frame's code-ascending order: the code never compares security
codes, and ties are not broken by code ascending. -/
theorem claim_C7_counterexample :
    calculate_switching_score c7data 29 = [c7recB, c7recA]
    ∧ c7recB.switchingScore = c7recA.switchingScore
    ∧ c7recA.saham < c7recB.saham := by
  refine ⟨by decide, by decide, ?_⟩
  rw [String.lt_iff_toList_lt]
  decide

/-- Claim C7, amended: the engine's output is sorted descending by
switching score and the screener delivers at most 50 records (which
stay sorted); ties are not broken by security code ascending - tied
records appear in the reverse of their pre-sort order. -/
theorem claim_C7 (data : List Row) (p : ℤ) :
    List.Pairwise (fun a b : FinalRec => b.switchingScore ≤ a.switchingScore)
      (calculate_switching_score data p)
    ∧ List.Pairwise (fun a b : FinalRec => b.switchingScore ≤ a.switchingScore)
      (topResults data p)
    ∧ (topResults data p).length ≤ 50 := by
  have hsorted : ∀ l : List FinalRec,
      List.Pairwise (fun a b : FinalRec => b.switchingScore ≤ a.switchingScore)
        (sortValuesDesc l) := by
    intro l
    unfold sortValuesDesc
    rw [List.pairwise_reverse]
    exact List.sorted_insertionSort scoreLE l
  have h1 : List.Pairwise (fun a b : FinalRec => b.switchingScore ≤ a.switchingScore)
      (calculate_switching_score data p) := by
    unfold calculate_switching_score
    split
    · exact List.Pairwise.nil
    · exact hsorted _
  refine ⟨h1, ?_, ?_⟩
  · exact List.Pairwise.sublist (List.take_sublist 50 _) h1
  · unfold topResults
    rw [List.length_take]
    exact min_le_left 50 _

/-- Claim C4, counterexample: with snapshots on days 0, 100, 150 and
200 and a 90-day lookback, the target start is day 110; the detail tab
resolves the start to the day-150 snapshot - a snapshot dated after the
target - even though the day-100 snapshot lies at or before the target
and the claimed nearest-past policy would have selected it. -/
theorem claim_C4_counterexample :
    tabDetailAlign c4stock 90 = some (c4row150, c4row200)
    ∧ listMax (c4stock.map Row.date) - 90 < c4row150.date
    ∧ c4row100 ∈ c4stock
    ∧ c4row100.date ≤ listMax (c4stock.map Row.date) - 90 := by decide

/-- Claim C4, amended: in the per-security detail variant the resolved
start snapshot is the earliest available snapshot dated at or after the
target start date (the security's latest date minus the lookback);
snapshots before the target are filtered out of the window, so a
nearest-past snapshot is never selected. -/
theorem claim_C4_amended (stock_data : List Row) (p : ℤ) (s e : Row)
    (hsorted : List.Pairwise (fun r1 r2 : Row => r1.date ≤ r2.date) stock_data)
    (h : tabDetailAlign stock_data p = some (s, e)) :
    s ∈ stock_data
    ∧ listMax (stock_data.map Row.date) - p ≤ s.date
    ∧ ∀ r ∈ stock_data,
        listMax (stock_data.map Row.date) - p ≤ r.date → s.date ≤ r.date := by
  simp only [tabDetailAlign] at h
  cases hfl : stock_data.filter
      (fun r => decide (listMax (stock_data.map Row.date) - p ≤ r.date)) with
  | nil =>
    rw [hfl] at h
    simp at h
  | cons r0 tl =>
    cases tl with
    | nil =>
      rw [hfl] at h
      simp at h
    | cons r1 rest =>
      rw [hfl] at h
      simp only [Option.some.injEq, Prod.mk.injEq] at h
      obtain ⟨hs, _⟩ := h
      have hr0 : r0 ∈ stock_data.filter
          (fun r => decide (listMax (stock_data.map Row.date) - p ≤ r.date)) := by
        rw [hfl]
        exact List.mem_cons_self r0 (r1 :: rest)
      obtain ⟨hr0d, hr0t⟩ := List.mem_filter.1 hr0
      subst hs
      refine ⟨hr0d, by simpa using hr0t, ?_⟩
      intro r hr hrt
      have hrf : r ∈ stock_data.filter
          (fun r' => decide (listMax (stock_data.map Row.date) - p ≤ r'.date)) :=
        List.mem_filter.2 ⟨hr, by simpa using hrt⟩
      rw [hfl] at hrf
      rcases List.mem_cons.1 hrf with hrr | hrtl
      · rw [hrr]
      · have hpf := hsorted.filter
          (fun r' => decide (listMax (stock_data.map Row.date) - p ≤ r'.date))
        rw [hfl, List.pairwise_cons] at hpf
        exact hpf.1 r hrtl

/-- Claim C4, witness: the amended policy on the concrete four-snapshot
security. -/
theorem claim_C4_witness :
    c4row150 ∈ c4stock
    ∧ listMax (c4stock.map Row.date) - 90 ≤ c4row150.date
    ∧ ∀ r ∈ c4stock,
        listMax (c4stock.map Row.date) - 90 ≤ r.date → c4row150.date ≤ r.date :=
  claim_C4_amended c4stock 90 c4row150 c4row200 (by decide) (by decide)

/-- Claim C8, counterexample: the engine's output records carry no
price percentage change.  For the one-security dataset whose period
price change is (6 - 4) / 4 = 1/2, the produced record's fields are the
code, the name and the three integer delta aggregates (0, 3 and 3) -
no field holds the price change. -/
theorem claim_C8_counterexample :
    calculate_switching_score c8data 29 = [c8rec]
    ∧ (c8rowEnd.price - c8rowStart.price) / c8rowStart.price = 1 / 2
    ∧ ((c8rec.switchingScore : ℚ)
        ≠ (c8rowEnd.price - c8rowStart.price) / c8rowStart.price)
    ∧ ((c8rec.akumulasiInstitusi : ℚ)
        ≠ (c8rowEnd.price - c8rowStart.price) / c8rowStart.price)
    ∧ ((c8rec.distribusiRitel : ℚ)
        ≠ (c8rowEnd.price - c8rowStart.price) / c8rowStart.price) := by
  refine ⟨by decide, ?_, ?_, ?_, ?_⟩
  · norm_num [c8rowEnd, c8rowStart]
  · norm_num [c8rowEnd, c8rowStart, c8rec, mkFinalRec]
  · norm_num [c8rowEnd, c8rowStart, c8rec, mkFinalRec]
  · norm_num [c8rowEnd, c8rowStart, c8rec, mkFinalRec]

/-- Claim C8, amended: every record carries the security code, the
display name, the switching score and the two aggregate deltas, and
nothing else; in particular the record is entirely independent of the
price column, so no price percentage change accompanies the deltas. -/
theorem claim_C8_amended (er sr : Row) (q1 q2 : ℚ) :
    mkFinalRec (setPrice er q1) (setPrice sr q2) = mkFinalRec er sr
    ∧ mkFinalRec er sr =
      ⟨er.code, er.description.getD er.code,
       ((er.localInst - sr.localInst) + (er.foreignInst - sr.foreignInst)) -
         ((er.localRetail - sr.localRetail) + (er.foreignRetail - sr.foreignRetail)),
       (er.localInst - sr.localInst) + (er.foreignInst - sr.foreignInst),
       (er.localRetail - sr.localRetail) + (er.foreignRetail - sr.foreignRetail)⟩ :=
  ⟨rfl, rfl⟩
